import Mathlib

/-!
Verification of the power-state orchestration subsystem: a shallow embedding
of `PowerProfileManager` (src/unnamed/part_003, src/src/PowerProfileManager.h)
and `PowerFSM` (src/src/PowerFSM.cpp), together with theorems settling the
behavioural claims about profile layering, profile publication, the FSM
transition table, rebuild behaviour and the BLE advertising policy.

Machine integers: the C++ `uint32_t` timeout fields only ever hold small
configured second counts and are never overflowed by the code (the only
arithmetic is `* 1000` for milliseconds), so they are embedded as `Nat`.
Debug label strings and log statements carry no semantics and are omitted.
-/

namespace Meshtastic

/-- The protobuf `meshtastic_Config_PowerConfig_PowerProfile_MaxPowerState`
enum. Numbering follows the source comment in `isPowerStateAllowed`:
SDS = 0, LS = 1, NB = 2, DARK = 3, ON = 4. -/
inductive MaxPowerState
  | MAX_SDS
  | MAX_LS
  | MAX_NO_BLUETOOTH
  | MAX_DARK
  | MAX_ON
deriving DecidableEq

/-- Numeric value of a `MaxPowerState`, i.e. the protobuf enum value that the
C++ comparison `state >= maxState` operates on. -/
def mpsToNat : MaxPowerState → Nat
  | .MAX_SDS => 0
  | .MAX_LS => 1
  | .MAX_NO_BLUETOOTH => 2
  | .MAX_DARK => 3
  | .MAX_ON => 4

/-- Device roles referenced by the power subsystem
(`meshtastic_Config_DeviceConfig_Role`). Roles not mentioned by the power
code all fall into the `default` branch of `applyRoleModifiers`; `OTHER`
stands for any such role. -/
inductive Role
  | ROUTER
  | TRACKER
  | TAK_TRACKER
  | SENSOR
  | CLIENT_MUTE
  | CLIENT
  | OTHER
deriving DecidableEq

/-- The forced-profile override (`meshtastic_Config_PowerConfig_ProfileOverride`). -/
inductive ProfileOverride
  | PROFILE_AUTO
  | PROFILE_ALWAYS_PLUGGED
  | PROFILE_ALWAYS_BATTERY
deriving DecidableEq

/-- A power profile record (`meshtastic_Config_PowerConfig_PowerProfile`). -/
structure PowerProfile where
  allow_deep_sleep : Bool
  allow_light_sleep : Bool
  bluetooth_enabled : Bool
  wifi_enabled : Bool
  screen_stays_responsive : Bool
  gps_enabled : Bool
  screen_timeout_secs : Nat
  bluetooth_timeout_secs : Nat
  min_wake_secs : Nat
  max_power_state : MaxPowerState
deriving DecidableEq

/-- `systemDefaultPluggedProfile` (part_003 lines 12-23). -/
def systemDefaultPluggedProfile : PowerProfile :=
  { allow_deep_sleep := false
    allow_light_sleep := false
    bluetooth_enabled := true
    wifi_enabled := true
    screen_stays_responsive := true
    gps_enabled := true
    screen_timeout_secs := 0
    bluetooth_timeout_secs := 0
    min_wake_secs := 0
    max_power_state := .MAX_ON }

/-- `systemDefaultBatteryProfile` (part_003 lines 25-36). -/
def systemDefaultBatteryProfile : PowerProfile :=
  { allow_deep_sleep := false
    allow_light_sleep := false
    bluetooth_enabled := false
    wifi_enabled := false
    screen_stays_responsive := false
    gps_enabled := true
    screen_timeout_secs := 30
    bluetooth_timeout_secs := 30
    min_wake_secs := 5
    max_power_state := .MAX_NO_BLUETOOTH }

/-- `legacyPowerSavingProfile` (part_003 lines 39-50). -/
def legacyPowerSavingProfile : PowerProfile :=
  { allow_deep_sleep := true
    allow_light_sleep := true
    bluetooth_enabled := false
    wifi_enabled := false
    screen_stays_responsive := true
    gps_enabled := true
    screen_timeout_secs := 0
    bluetooth_timeout_secs := 0
    min_wake_secs := 0
    max_power_state := .MAX_SDS }

/-- `legacyNormalProfile` (part_003 lines 52-63). -/
def legacyNormalProfile : PowerProfile :=
  { allow_deep_sleep := false
    allow_light_sleep := false
    bluetooth_enabled := true
    wifi_enabled := true
    screen_stays_responsive := true
    gps_enabled := true
    screen_timeout_secs := 0
    bluetooth_timeout_secs := 0
    min_wake_secs := 0
    max_power_state := .MAX_DARK }

/-- The static working record `computedProfile` (part_003 line 66) is
zero-initialized by C++ static initialization before the first granular
resolution fills it. -/
def zeroProfile : PowerProfile :=
  { allow_deep_sleep := false
    allow_light_sleep := false
    bluetooth_enabled := false
    wifi_enabled := false
    screen_stays_responsive := false
    gps_enabled := false
    screen_timeout_secs := 0
    bluetooth_timeout_secs := 0
    min_wake_secs := 0
    max_power_state := .MAX_SDS }

/-- The slice of `config.power` read by the resolver. The C++ pairs
`has_plugged_in_profile`/`plugged_in_profile` and
`has_battery_profile`/`battery_profile` are embedded as `Option`. -/
structure PowerConfigC where
  force_profile : ProfileOverride
  is_power_saving : Bool
  plugged_in_profile : Option PowerProfile
  battery_profile : Option PowerProfile
deriving DecidableEq

/-- `PowerProfileManager::applyRoleModifiers` (part_003 lines 178-214). -/
def applyRoleModifiers (profile : PowerProfile) (role : Role) : PowerProfile :=
  match role with
  | .ROUTER =>
      { profile with
        allow_deep_sleep := false
        allow_light_sleep := false
        min_wake_secs := 1
        max_power_state := .MAX_DARK }
  | .TRACKER =>
      { profile with
        gps_enabled := true
        screen_timeout_secs := 10 }
  | .SENSOR =>
      { profile with
        bluetooth_enabled := false
        screen_stays_responsive := false
        screen_timeout_secs := 5 }
  | .CLIENT_MUTE =>
      { profile with screen_stays_responsive := false }
  | _ => profile

/-- `PowerProfileManager::applyUserOverrides` (part_003 lines 216-235): the
selected user profile, when present, wholesale replaces the computed one. -/
def applyUserOverrides (cfg : PowerConfigC) (profile : PowerProfile)
    (hasUSB : Bool) : PowerProfile :=
  if hasUSB then
    match cfg.plugged_in_profile with
    | some userProfile => userProfile
    | none => profile
  else
    match cfg.battery_profile with
    | some userProfile => userProfile
    | none => profile

/-- `PowerProfileManager::computeLayeredProfile` (part_003 lines 143-176):
the value that the code leaves in the static `computedProfile` record. -/
def computeLayeredProfile (cfg : PowerConfigC) (role : Role)
    (hasUSB : Bool) : PowerProfile :=
  let baseProfile :=
    match cfg.force_profile with
    | .PROFILE_ALWAYS_PLUGGED => systemDefaultPluggedProfile
    | .PROFILE_ALWAYS_BATTERY => systemDefaultBatteryProfile
    | .PROFILE_AUTO =>
        if hasUSB then systemDefaultPluggedProfile else systemDefaultBatteryProfile
  applyUserOverrides cfg (applyRoleModifiers baseProfile role) hasUSB

/-- The static profile records whose addresses `selectActiveProfile` can
return: the two legacy records and the single working record
`computedProfile`. The published `currentProfile` pointer is a value of this
type. -/
inductive ProfileRef
  | legacyPowerSaving
  | legacyNormal
  | computedSlot
deriving DecidableEq

/-- Mutable state of `PowerProfileManager`: the published atomic pointer
`currentProfile` (`none` = nullptr before `init`) and the contents of the
static scratch record `computedProfile`. -/
structure ManagerState where
  currentProfile : Option ProfileRef
  computedProfile : PowerProfile
deriving DecidableEq

/-- Inputs read by one resolution: the cached granular flag, the config
slice, the device role and the current USB status. -/
structure Env where
  granularEnabled : Bool
  cfg : PowerConfigC
  role : Role
  hasUSB : Bool
deriving DecidableEq

/-- Contents of the record a `ProfileRef` points to, given the current
contents of the scratch record. The legacy records are constants. -/
def derefProfile (st : ManagerState) : ProfileRef → PowerProfile
  | .legacyPowerSaving => legacyPowerSavingProfile
  | .legacyNormal => legacyNormalProfile
  | .computedSlot => st.computedProfile

/-- `PowerProfileManager::getLegacyProfile` (part_003 lines 130-141). -/
def getLegacyProfile (env : Env) : ProfileRef :=
  if env.cfg.is_power_saving || env.role == .ROUTER then
    .legacyPowerSaving
  else
    .legacyNormal

/-- `PowerProfileManager::selectActiveProfile` (part_003 lines 119-128):
returns the pointer the code returns together with the contents the scratch
record holds afterwards (in legacy mode the scratch record is untouched; in
granular mode `computeLayeredProfile` overwrites it). -/
def selectActiveProfile (env : Env) (st : ManagerState) :
    ProfileRef × PowerProfile :=
  if env.granularEnabled then
    (.computedSlot, computeLayeredProfile env.cfg env.role env.hasUSB)
  else
    (getLegacyProfile env, st.computedProfile)

/-- Result of one `updateActiveProfile` call: the returned `bool`, the
manager state afterwards, and whether `PowerFSM_scheduleRecreation()` was
invoked. -/
structure UpdateResult where
  changed : Bool
  state : ManagerState
  scheduledRecreation : Bool
deriving DecidableEq

/-- `PowerProfileManager::updateActiveProfile` (part_003 lines 90-117):
resolve (which in granular mode rewrites the scratch record), compare the
resulting pointer with the published pointer, and on inequality publish it
and invoke `PowerFSM_scheduleRecreation()`. -/
def updateActiveProfile (env : Env) (st : ManagerState) : UpdateResult :=
  let sel := selectActiveProfile env st
  let resolved : ManagerState :=
    { currentProfile := st.currentProfile, computedProfile := sel.2 }
  if some sel.1 = st.currentProfile then
    { changed := false, state := resolved, scheduledRecreation := false }
  else
    { changed := true
      state := { currentProfile := some sel.1, computedProfile := sel.2 }
      scheduledRecreation := true }

/-- `PowerProfileManager::getActiveProfile` (part_003 lines 237-241):
the published record, falling back to `legacyNormalProfile` when the pointer
is still null. -/
def getActiveProfile (st : ManagerState) : PowerProfile :=
  match st.currentProfile with
  | some r => derefProfile st r
  | none => legacyNormalProfile

/-- `PowerProfileManager::getMaxPowerState` (part_003 lines 324-328). -/
def getMaxPowerState (st : ManagerState) : MaxPowerState :=
  (getActiveProfile st).max_power_state

/-- `PowerProfileManager::isPowerStateAllowed` (part_003 lines 330-339):
`return state >= maxState` on the enum values. -/
def isPowerStateAllowed (st : ManagerState) (state : MaxPowerState) : Bool :=
  mpsToNat (getMaxPowerState st) ≤ mpsToNat state

/-- `PowerProfileManager::getScreenTimeoutSecs` (part_003 lines 294-302);
`sysDefaultSecs` stands for the external
`Default::getConfiguredOrDefaultMs(config.display.screen_on_secs, default_screen_on_secs) / 1000`. -/
def getScreenTimeoutSecs (p : PowerProfile) (sysDefaultSecs : Nat) : Nat :=
  if p.screen_timeout_secs > 0 then p.screen_timeout_secs else sysDefaultSecs

/-- `PowerProfileManager::getBluetoothTimeoutSecs` (part_003 lines 304-312). -/
def getBluetoothTimeoutSecs (p : PowerProfile) (sysDefaultSecs : Nat) : Nat :=
  if p.bluetooth_timeout_secs > 0 then p.bluetooth_timeout_secs else sysDefaultSecs

/-- `PowerProfileManager::getMinWakeSecs` (part_003 lines 314-322). -/
def getMinWakeSecs (p : PowerProfile) (sysDefaultSecs : Nat) : Nat :=
  if p.min_wake_secs > 0 then p.min_wake_secs else sysDefaultSecs

/-! The power FSM of src/src/PowerFSM.cpp. -/

/-- The ten FSM states declared in PowerFSM.cpp lines 218-227. -/
inductive FsmState
  | BOOT
  | SDS
  | LOW_BATT_SDS
  | LS
  | NB
  | DARK
  | SERIAL
  | ON
  | POWER
  | SHUTDOWN
deriving DecidableEq

/-- The FSM events (`EVENT_*` of PowerFSM.h, as dispatched in PowerFSM.cpp). -/
inductive Event
  | WAKE_TIMER
  | PACKET_FOR_PHONE
  | PRESS
  | LOW_BATTERY
  | SHUTDOWN
  | INPUT
  | BLUETOOTH_PAIR
  | SERIAL_CONNECTED
  | SERIAL_DISCONNECTED
  | POWER_CONNECTED
  | POWER_DISCONNECTED
  | CONTACT_FROM_PHONE
  | RECEIVED_MSG
  | NODEDB_UPDATED
deriving DecidableEq

/-- Transition actions registered in the table (the only non-NULL one in
PowerFSM.cpp is `screenPress`). -/
inductive FsmAction
  | screenPress
deriving DecidableEq

/-- A plain transition rule (source, event, target, optional action). -/
structure Transition where
  source : FsmState
  event : Event
  target : FsmState
  action : Option FsmAction
deriving DecidableEq

/-- A timed transition rule (source, target, duration in ms, optional
action). -/
structure TimedTransition where
  source : FsmState
  target : FsmState
  durationMs : Nat
  action : Option FsmAction
deriving DecidableEq

/-- Everything `PowerFSM_create` reads: the active profile (via the
`PowerProfile::` query helpers), the USB status, the device role, the
compile-time platform flags of the `#ifdef` branches, the runtime
`isWifiAvailable()` answer, and the system-default timeout values that the
`get*Secs` helpers fall back to. -/
structure BuildEnv where
  profile : PowerProfile
  hasUSB : Bool
  role : Role
  archESP32 : Bool
  wifiSection : Bool
  useEink : Bool
  wifiAvailable : Bool
  sysScreenOnSecs : Nat
  sysWaitBluetoothSecs : Nat
  sysMinWakeSecs : Nat
deriving DecidableEq

/-- `State* wakeTarget = PowerProfile::bluetoothEnabled() ? &stateDARK : &stateNB`
(PowerFSM.cpp line 274). -/
def wakeTarget (env : BuildEnv) : FsmState :=
  if env.profile.bluetooth_enabled then .DARK else .NB

/-- `bool shouldEnableLightSleep = ...` (PowerFSM.cpp lines 384-388). -/
def shouldEnableLightSleep (env : BuildEnv) : Bool :=
  env.profile.allow_light_sleep && !env.wifiAvailable &&
    !(env.role == .TRACKER || env.role == .TAK_TRACKER || env.role == .SENSOR)

/-- The plain transitions registered by `PowerFSM_create`
(PowerFSM.cpp lines 271-378), in registration order. Debug label strings are
omitted. -/
def plainTransitions (env : BuildEnv) : List Transition :=
  [ (if env.archESP32 then
      { source := .LS, event := .WAKE_TIMER, target := wakeTarget env, action := none }
    else
      { source := .LS, event := .WAKE_TIMER, target := .DARK, action := none }),
    { source := .LS, event := .PACKET_FOR_PHONE, target := wakeTarget env, action := none },
    { source := .NB, event := .PACKET_FOR_PHONE, target := .NB, action := none },
    { source := .NB, event := .PACKET_FOR_PHONE, target := .DARK, action := none },
    { source := .LS, event := .PRESS, target := .ON, action := none },
    { source := .NB, event := .PRESS, target := .ON, action := none },
    { source := .DARK, event := .PRESS,
      target := if env.hasUSB then .POWER else .ON, action := none },
    { source := .POWER, event := .PRESS, target := .POWER, action := some .screenPress },
    { source := .ON, event := .PRESS, target := .ON, action := some .screenPress },
    { source := .SERIAL, event := .PRESS, target := .SERIAL, action := some .screenPress },
    { source := .BOOT, event := .LOW_BATTERY, target := .LOW_BATT_SDS, action := none },
    { source := .LS, event := .LOW_BATTERY, target := .LOW_BATT_SDS, action := none },
    { source := .NB, event := .LOW_BATTERY, target := .LOW_BATT_SDS, action := none },
    { source := .DARK, event := .LOW_BATTERY, target := .LOW_BATT_SDS, action := none },
    { source := .ON, event := .LOW_BATTERY, target := .LOW_BATT_SDS, action := none },
    { source := .SERIAL, event := .LOW_BATTERY, target := .LOW_BATT_SDS, action := none },
    { source := .BOOT, event := .SHUTDOWN, target := .SHUTDOWN, action := none },
    { source := .LS, event := .SHUTDOWN, target := .SHUTDOWN, action := none },
    { source := .NB, event := .SHUTDOWN, target := .SHUTDOWN, action := none },
    { source := .DARK, event := .SHUTDOWN, target := .SHUTDOWN, action := none },
    { source := .ON, event := .SHUTDOWN, target := .SHUTDOWN, action := none },
    { source := .SERIAL, event := .SHUTDOWN, target := .SHUTDOWN, action := none },
    { source := .LS, event := .INPUT, target := .ON, action := none },
    { source := .NB, event := .INPUT, target := .ON, action := none },
    { source := .DARK, event := .INPUT, target := .ON, action := none },
    { source := .ON, event := .INPUT, target := .ON, action := none },
    { source := .POWER, event := .INPUT, target := .POWER, action := none },
    { source := .DARK, event := .BLUETOOTH_PAIR, target := .ON, action := none },
    { source := .ON, event := .BLUETOOTH_PAIR, target := .ON, action := none },
    { source := .LS, event := .SERIAL_CONNECTED, target := .SERIAL, action := none },
    { source := .NB, event := .SERIAL_CONNECTED, target := .SERIAL, action := none },
    { source := .DARK, event := .SERIAL_CONNECTED, target := .SERIAL, action := none },
    { source := .ON, event := .SERIAL_CONNECTED, target := .SERIAL, action := none },
    { source := .POWER, event := .SERIAL_CONNECTED, target := .SERIAL, action := none },
    { source := .SERIAL, event := .SERIAL_DISCONNECTED, target := .ON, action := none },
    { source := .LS, event := .POWER_CONNECTED, target := .POWER, action := none },
    { source := .NB, event := .POWER_CONNECTED, target := .POWER, action := none },
    { source := .DARK, event := .POWER_CONNECTED, target := .POWER, action := none },
    { source := .ON, event := .POWER_CONNECTED, target := .POWER, action := none },
    { source := .POWER, event := .POWER_DISCONNECTED, target := .ON, action := none },
    { source := .DARK, event := .CONTACT_FROM_PHONE, target := .DARK, action := none } ]
  ++ (if env.profile.screen_stays_responsive then
      [ { source := .LS, event := .RECEIVED_MSG, target := .ON, action := none },
        { source := .NB, event := .RECEIVED_MSG, target := .ON, action := none },
        { source := .DARK, event := .RECEIVED_MSG, target := .ON, action := none },
        { source := .NB, event := .NODEDB_UPDATED, target := .ON, action := none },
        { source := .DARK, event := .NODEDB_UPDATED, target := .ON, action := none } ]
    else
      [ { source := .LS, event := .RECEIVED_MSG, target := .LS, action := none },
        { source := .NB, event := .RECEIVED_MSG, target := .NB, action := none },
        { source := .DARK, event := .RECEIVED_MSG, target := .DARK, action := none },
        { source := .NB, event := .NODEDB_UPDATED, target := .NB, action := none },
        { source := .DARK, event := .NODEDB_UPDATED, target := .DARK, action := none } ])
  ++ [ { source := .ON, event := .RECEIVED_MSG, target := .ON, action := none },
       { source := .ON, event := .NODEDB_UPDATED, target := .ON, action := none } ]

/-- The one-time boot timed transition (PowerFSM.cpp lines 266-269): added
exactly when the engine being built starts in BOOT. -/
def bootTimedList (env : BuildEnv) (initialState : FsmState) : List TimedTransition :=
  if initialState = .BOOT then
    [ { source := .BOOT, target := if env.hasUSB then .POWER else .ON,
        durationMs := 3 * 1000, action := none } ]
  else
    []

/-- The profile-dependent timed transitions of `PowerFSM_create`
(PowerFSM.cpp lines 342-410): screen timeouts (guarded by
`getScreenTimeoutSecs() > 0` only on e-ink builds) and the light-sleep /
drift-check branch. -/
def profileTimedList (env : BuildEnv) : List TimedTransition :=
  (if !env.useEink || getScreenTimeoutSecs env.profile env.sysScreenOnSecs > 0 then
    [ { source := .ON, target := .DARK,
        durationMs := getScreenTimeoutSecs env.profile env.sysScreenOnSecs * 1000,
        action := none },
      { source := .POWER, target := .DARK,
        durationMs := getScreenTimeoutSecs env.profile env.sysScreenOnSecs * 1000,
        action := none } ]
  else [])
  ++ (if env.archESP32 then
      (if env.wifiSection then
        (if shouldEnableLightSleep env then
          [ { source := .NB, target := .LS,
              durationMs := getMinWakeSecs env.profile env.sysMinWakeSecs * 1000,
              action := none },
            { source := .DARK, target := .LS,
              durationMs := getBluetoothTimeoutSecs env.profile env.sysWaitBluetoothSecs * 1000,
              action := none } ]
        else
          [ { source := .DARK, target := .DARK,
              durationMs := getScreenTimeoutSecs env.profile env.sysScreenOnSecs * 1000,
              action := none } ])
      else [])
    else
      [ { source := .DARK, target := .DARK,
          durationMs := getScreenTimeoutSecs env.profile env.sysScreenOnSecs * 1000,
          action := none } ])

/-- All timed transitions registered by one `PowerFSM_create` run, in
registration order. -/
def timedTransitions (env : BuildEnv) (initialState : FsmState) : List TimedTransition :=
  bootTimedList env initialState ++ profileTimedList env

/-- A state-machine engine instance: current state plus the registered
transition tables. -/
structure Engine where
  current : FsmState
  table : List Transition
  timed : List TimedTransition
deriving DecidableEq

/-- Modelled from the spec: the `Fsm` engine class itself is not under src/
(only PowerFSM.cpp uses it). Spec section 3 gives its timed-rule semantics:
the deadline is computed at state-entry time and a rule "fires once elapsed
time exceeds duration and no other transition has moved the state first".
`fireTimed` runs one timed-dispatch pass at the given elapsed time since
entry of the current state, firing the first matching registered rule. -/
def fireTimed (e : Engine) (elapsedMs : Nat) : Engine :=
  match e.timed.find? (fun t => t.source == e.current && decide (t.durationMs < elapsedMs)) with
  | some t => { e with current := t.target }
  | none => e

/-- Modelled from the spec: plain-rule lookup of the `Fsm` engine (not under
src/). Spec section 4.2: look up the plain rule for (current, event), and
spec line 49 resolves duplicate registrations: "the later registration is
the effective one", hence the last matching rule is taken. -/
def findRule (table : List Transition) (s : FsmState) (ev : Event) : Option Transition :=
  (table.filter (fun t => t.source == s && t.event == ev)).getLast?

/-- Modelled from the spec: `Fsm::trigger` (not under src/), spec section
4.2: if a rule for (current, event) is registered, switch the current state
to its target; if absent, silently ignore. -/
def triggerEvent (e : Engine) (ev : Event) : Engine :=
  match findRule e.table e.current ev with
  | some t => { e with current := t.target }
  | none => e

/-- `PowerFSM_create` (PowerFSM.cpp lines 242-419): pick the initial state
(the preserved one if recreating, else BOOT), build the tables, and run one
`run_machine()` pass (at elapsed time 0, so no timed rule can fire). The
enter hooks run by that pass do not move the current state: the only enter
hook that re-enters the dispatcher is `sdsEnter`, whose WAKE_TIMER trigger
finds no rule with source SDS (see the SDS-isolation theorem below). -/
def PowerFSM_create (env : BuildEnv) (preservedState : Option FsmState) : Engine :=
  let initialState := match preservedState with
    | some s => s
    | none => .BOOT
  fireTimed
    { current := initialState
      table := plainTransitions env
      timed := timedTransitions env initialState }
    0

/-- `PowerFSM_recreate` (PowerFSM.cpp lines 425-435): snapshot the current
state and rebuild through `PowerFSM_create` with it preserved. -/
def PowerFSM_recreate (env : BuildEnv) (e : Engine) : Engine :=
  PowerFSM_create env (some e.current)

/-- The engine has a boot timed transition registered (one whose source is
BOOT). -/
def hasBootTimer (e : Engine) : Prop :=
  ∃ t ∈ e.timed, t.source = FsmState.BOOT

/-- One step of the machine under a fixed engine: following any registered
plain rule or any registered timed rule from the current state. This
over-approximates every dispatch policy for duplicate rules, so
unreachability results below hold for any such policy. -/
inductive EngineStep (e : Engine) : FsmState → FsmState → Prop where
  | plain {s : FsmState} (t : Transition) (ht : t ∈ e.table) (hs : t.source = s) :
      EngineStep e s t.target
  | timedRule {s : FsmState} (t : TimedTransition) (ht : t ∈ e.timed) (hs : t.source = s) :
      EngineStep e s t.target

/-! State-entry effects of the two deep-sleep states (PowerFSM.cpp). -/

/-- Externally visible effects a state-entry hook can emit: firing an FSM
event through `powerFSM.trigger`, or invoking the `doDeepSleep` hardware
primitive (with its `forced` flag). -/
inductive SleepEffect
  | fireEvent (ev : Event)
  | deepSleep (forced : Bool)
deriving DecidableEq

/-- `sdsEnter` (PowerFSM.cpp lines 37-48): if the profile disallows deep
sleep, fire EVENT_WAKE_TIMER and return without sleeping; otherwise invoke
`doDeepSleep(..., forced := false)`. -/
def sdsEnter (p : PowerProfile) : List SleepEffect :=
  if !p.allow_deep_sleep then
    [.fireEvent .WAKE_TIMER]
  else
    [.deepSleep false]

/-- `lowBattSDSEnter` (PowerFSM.cpp lines 50-54): invoke
`doDeepSleep(..., forced := true)` unconditionally; it reads no profile. -/
def lowBattSDSEnter : List SleepEffect :=
  [.deepSleep true]

/-! Lock usage of the PowerFSM module (PowerFSM.cpp lines 230-236 and the
function bodies): a structural model recording, for each entry point of the
module, whether its body takes a `LockGuard` on `powerFSMLock`, whether it
calls `powerFSM.trigger`, and whether it reads or writes the
`fsmRecreationPending` flag. -/

/-- The entry points of the PowerFSM module and the idle/enter hooks that
dispatch events. -/
inductive PowerFsmEntry
  | createFn
  | recreateFn
  | setupFn
  | processRecreationFn
  | scheduleRecreationFn
  | reconfigureFn
  | lsIdleHook
  | powerIdleHook
  | onIdleHook
  | sdsEnterHook
deriving DecidableEq

/-- Which bodies contain `concurrency::LockGuard guard(&powerFSMLock)`:
only `PowerFSM_create` (line 244) and `PowerFSM_recreate` (line 427). -/
def acquiresPowerFSMLock : PowerFsmEntry → Bool
  | .createFn => true
  | .recreateFn => true
  | _ => false

/-- Which bodies call `powerFSM.trigger(...)`: `lsIdle` (lines 99, 110,
114, 126), `powerIdle` (line 181), `onIdle` (line 204) and `sdsEnter`
(line 43). -/
def callsFsmTrigger : PowerFsmEntry → Bool
  | .lsIdleHook => true
  | .powerIdleHook => true
  | .onIdleHook => true
  | .sdsEnterHook => true
  | _ => false

/-- Which bodies read or write `fsmRecreationPending`:
`PowerFSM_processRecreation` (lines 453-454) and
`PowerFSM_scheduleRecreation` (line 466). -/
def touchesPendingFlag : PowerFsmEntry → Bool
  | .processRecreationFn => true
  | .scheduleRecreationFn => true
  | _ => false

/-! The BLE advertising controller (src/src/nimble/NimbleBluetooth.h,
behaviour documented in src/BLE_ADVERTISING_CONTROL.md). -/

/-- The advertising state tracked by `NimbleBluetooth`
(`advertisingActive`, NimbleBluetooth.h line 21). -/
structure BleState where
  advertisingActive : Bool
deriving DecidableEq

/-- Modelled from the spec: the body of the NimbleBluetooth client
disconnect handler is not under src/ (only the class declaration and
BLE_ADVERTISING_CONTROL.md are). Per BLE_ADVERTISING_CONTROL.md "Client
Disconnect" and spec section 4.4: on disconnect, re-read the CURRENT active
profile through `getActiveProfile()` and restart advertising only if its
`bluetooth_enabled` is true; otherwise leave the advertising state
untouched. -/
def onClientDisconnect (mgr : ManagerState) (ble : BleState) : BleState :=
  if (getActiveProfile mgr).bluetooth_enabled then
    { ble with advertisingActive := true }
  else
    ble

/-! Claim-side restatement of the granular layering (for the refinement
comparison of the layering claim). -/

/-- Role modifiers exactly as the layering claim words them: Router
disables deep and light sleep, sets min_wake to 1 s and the ceiling to
DARK; Tracker keeps GPS on and sets a 10 s screen timeout; Sensor turns
bluetooth off, makes the screen non-responsive and sets a 5 s screen
timeout; ClientMute makes the screen non-responsive; Client (and any other
role) is unchanged. -/
def roleModifiedClaim (p : PowerProfile) (role : Role) : PowerProfile :=
  match role with
  | .ROUTER =>
      { p with
        allow_deep_sleep := false
        allow_light_sleep := false
        min_wake_secs := 1
        max_power_state := .MAX_DARK }
  | .TRACKER => { p with gps_enabled := true, screen_timeout_secs := 10 }
  | .SENSOR =>
      { p with
        bluetooth_enabled := false
        screen_stays_responsive := false
        screen_timeout_secs := 5 }
  | .CLIENT_MUTE => { p with screen_stays_responsive := false }
  | _ => p

/-- Granular resolution exactly as the layering claim words it: choose the
base system default by the forced override (AUTO selects by USB presence),
clone it, apply the role modifiers, then, if a user-override profile exists
for the current power source, let it wholesale replace the computed
profile. -/
def layeredProfileClaim (cfg : PowerConfigC) (role : Role) (hasUSB : Bool) :
    PowerProfile :=
  let base :=
    match cfg.force_profile with
    | .PROFILE_ALWAYS_PLUGGED => systemDefaultPluggedProfile
    | .PROFILE_ALWAYS_BATTERY => systemDefaultBatteryProfile
    | .PROFILE_AUTO =>
        if hasUSB then systemDefaultPluggedProfile else systemDefaultBatteryProfile
  let layered := roleModifiedClaim base role
  match (if hasUSB then cfg.plugged_in_profile else cfg.battery_profile) with
  | some user => user
  | none => layered

/-! Concrete fixtures: a granular-mode CLIENT device with AUTO forced
override and no user overrides, observed once on USB and once on battery. -/

/-- Config slice of the fixture device. -/
def autoClientCfg : PowerConfigC :=
  { force_profile := .PROFILE_AUTO
    is_power_saving := false
    plugged_in_profile := none
    battery_profile := none }

/-- Fixture resolution environment: granular mode, on USB power. -/
def envGranularUSB : Env :=
  { granularEnabled := true, cfg := autoClientCfg, role := .CLIENT, hasUSB := true }

/-- Fixture resolution environment: granular mode, on battery power. -/
def envGranularBattery : Env :=
  { granularEnabled := true, cfg := autoClientCfg, role := .CLIENT, hasUSB := false }

/-- Manager state before `init`: null published pointer, zero-initialized
scratch record. -/
def mgrInit : ManagerState :=
  { currentProfile := none, computedProfile := zeroProfile }

/-- Manager state after the first granular resolution on USB power has
published `&computedProfile`. -/
def mgrAfterPlugged : ManagerState :=
  (updateActiveProfile envGranularUSB mgrInit).state

/-- CLAIM C1. `updateActiveProfile` publishes, schedules a rebuild and
returns true exactly when the resolved pointer differs from the published
one — but for the documented purpose of detecting power-source changes this
identity comparison is broken: in granular mode the resolver always returns
the address of the single static `computedProfile` record, so after the
first granular publication a USB-to-battery flip resolves to a genuinely
different policy (third conjunct) yet the call returns false and schedules
no FSM rebuild (fourth and fifth conjuncts), contradicting the claim and
the function's own doc comment ("detect power source changes"). -/
theorem updateActiveProfile_misses_power_source_flip :
    (updateActiveProfile envGranularUSB mgrInit).changed = true
  ∧ mgrAfterPlugged.currentProfile = some ProfileRef.computedSlot
  ∧ computeLayeredProfile autoClientCfg .CLIENT false ≠
      computeLayeredProfile autoClientCfg .CLIENT true
  ∧ (updateActiveProfile envGranularBattery mgrAfterPlugged).changed = false
  ∧ (updateActiveProfile envGranularBattery mgrAfterPlugged).scheduledRecreation = false := by
  decide

/-- CLAIM C2. Resolution does NOT write only into a private scratch record
distinct from the published one: once the first granular resolution has
published `&computedProfile`, the next resolution under changed conditions
overwrites the very record the published active-profile pointer points to
(the record stays published while its contents change), so profile records
are not immutable after construction and a concurrent `getActiveProfile`
reader can observe the rewrite. -/
theorem computeLayeredProfile_overwrites_published_record :
    mgrAfterPlugged.currentProfile = some ProfileRef.computedSlot
  ∧ (updateActiveProfile envGranularBattery mgrAfterPlugged).state.currentProfile
      = some ProfileRef.computedSlot
  ∧ derefProfile (updateActiveProfile envGranularBattery mgrAfterPlugged).state
      ProfileRef.computedSlot
    ≠ derefProfile mgrAfterPlugged ProfileRef.computedSlot := by
  decide

/-- CLAIM C3 (counterexample). Not every `trigger()`/`tick()` call acquires
`powerFSMLock`, and the pending-rebuild flag is not guarded by it either:
the `lsIdle` hook dispatches events through `powerFSM.trigger` without
taking the lock, and `PowerFSM_scheduleRecreation` writes
`fsmRecreationPending` without taking it. -/
theorem trigger_without_powerFSMLock :
    callsFsmTrigger .lsIdleHook = true
  ∧ acquiresPowerFSMLock .lsIdleHook = false
  ∧ touchesPendingFlag .scheduleRecreationFn = true
  ∧ acquiresPowerFSMLock .scheduleRecreationFn = false := by
  decide

/-- CLAIM C3 (amended). `powerFSMLock` guards exactly the build and rebuild
procedures (`PowerFSM_create` and `PowerFSM_recreate`); no entry point that
dispatches events through `powerFSM.trigger` acquires it, and no entry
point touching the pending-rebuild flag acquires it — rebuild-versus-
dispatch exclusion relies on the cooperative main loop processing
recreation outside dispatch, not on the lock. -/
theorem powerFSMLock_guards_only_rebuild :
    (∀ f, acquiresPowerFSMLock f = (f == .createFn || f == .recreateFn))
  ∧ (∀ f, (callsFsmTrigger f && acquiresPowerFSMLock f) = false)
  ∧ (∀ f, (touchesPendingFlag f && acquiresPowerFSMLock f) = false) := by
  refine ⟨?_, ?_, ?_⟩ <;> intro f <;> cases f <;> rfl

/-- CLAIM C5. The granular resolution implemented by
`computeLayeredProfile` coincides, for every config, role and power source,
with the layering stated by the claim: system-default base selected by the
forced override (AUTO by USB presence), role modifiers applied on a clone,
and a present per-power-source user override wholesale replacing the
result. -/
theorem computeLayeredProfile_matches_layering_claim (cfg : PowerConfigC)
    (role : Role) (hasUSB : Bool) :
    computeLayeredProfile cfg role hasUSB = layeredProfileClaim cfg role hasUSB := by
  rcases cfg with ⟨fp, ps, pp, bp⟩
  cases fp <;> cases role <;> cases hasUSB <;> cases pp <;> cases bp <;> rfl

/-- CLAIM C6. On entry to SDS the deep-sleep primitive is invoked iff the
active profile allows deep sleep; when it does not, the entry hook emits
exactly one effect, firing EVENT_WAKE_TIMER, and never invokes the
primitive. On entry to LOW_BATT_SDS the (forced) deep-sleep primitive is
invoked unconditionally — `lowBattSDSEnter` reads no profile at all. -/
theorem sds_entry_gate (p : PowerProfile) :
    ((∃ f, SleepEffect.deepSleep f ∈ sdsEnter p) ↔ p.allow_deep_sleep = true)
  ∧ (p.allow_deep_sleep = false →
      sdsEnter p = [SleepEffect.fireEvent Event.WAKE_TIMER])
  ∧ SleepEffect.deepSleep true ∈ lowBattSDSEnter := by
  refine ⟨?_, ?_, ?_⟩
  · cases hp : p.allow_deep_sleep <;> simp [sdsEnter, hp]
  · intro hp; simp [sdsEnter, hp]
  · simp [lowBattSDSEnter]

/-- Witness for the SDS entry gate: the legacy normal profile disallows
deep sleep, and entering SDS under it fires only EVENT_WAKE_TIMER. -/
theorem sds_entry_gate_witness :
    legacyNormalProfile.allow_deep_sleep = false
  ∧ sdsEnter legacyNormalProfile = [SleepEffect.fireEvent Event.WAKE_TIMER] :=
  ⟨by decide, (sds_entry_gate legacyNormalProfile).2.1 (by decide)⟩

/-- CLAIM C7. The disconnect handler decides from the profile that is
active at disconnect time (its only profile input is the current manager
state): advertising is active after the call iff the current profile
enables bluetooth or advertising was already active, and when the current
profile has bluetooth disabled the handler changes nothing — in particular
it never restarts advertising by itself. -/
theorem onClientDisconnect_rereads_current_profile (mgr : ManagerState)
    (ble : BleState) :
    ((onClientDisconnect mgr ble).advertisingActive = true ↔
      ((getActiveProfile mgr).bluetooth_enabled = true ∨ ble.advertisingActive = true))
  ∧ ((getActiveProfile mgr).bluetooth_enabled = false →
      onClientDisconnect mgr ble = ble) := by
  constructor
  · cases hb : (getActiveProfile mgr).bluetooth_enabled <;>
      simp [onClientDisconnect, hb]
  · intro hb; simp [onClientDisconnect, hb]

/-- Manager state in which the granular battery policy (bluetooth
disabled) has been resolved into the published record: the profile change
that happened while the client stayed connected. -/
def mgrBtOff : ManagerState :=
  { currentProfile := some .computedSlot
    computedProfile := computeLayeredProfile autoClientCfg .CLIENT false }

/-- Witness for the disconnect handler: with the battery profile (bluetooth
disabled) active, a disconnect while advertising is off leaves advertising
off. -/
theorem onClientDisconnect_rereads_current_profile_witness :
    (getActiveProfile mgrBtOff).bluetooth_enabled = false
  ∧ onClientDisconnect mgrBtOff { advertisingActive := false }
      = { advertisingActive := false } :=
  ⟨by decide,
   (onClientDisconnect_rereads_current_profile mgrBtOff
      { advertisingActive := false }).2 (by decide)⟩

/-- CLAIM C9. `isPowerStateAllowed(candidate)` is true iff the candidate is
ordinally at least the active profile's `max_power_state` ceiling, and is
therefore monotonic in depth: if S1 is less deep (ordinally greater or
equal) than S2 and S2 is allowed, then S1 is allowed. -/
theorem isPowerStateAllowed_ge_and_monotone (st : ManagerState)
    (s1 s2 : MaxPowerState) :
    (isPowerStateAllowed st s1 = true ↔
      mpsToNat (getMaxPowerState st) ≤ mpsToNat s1)
  ∧ (mpsToNat s2 ≤ mpsToNat s1 → isPowerStateAllowed st s2 = true →
      isPowerStateAllowed st s1 = true) := by
  constructor
  · simp [isPowerStateAllowed]
  · intro h12 h2
    simp [isPowerStateAllowed] at h2 ⊢
    omega

/-- Manager state whose active profile is the legacy normal one (ceiling
MAX_DARK). -/
def mgrLegacyNormal : ManagerState :=
  { currentProfile := some .legacyNormal, computedProfile := zeroProfile }

/-! Structural lemmas about the built transition tables. -/

/-- At elapsed time 0 (the `run_machine()` pass inside `PowerFSM_create`)
no timed rule can fire, since firing requires the elapsed time to exceed
the duration. -/
theorem fireTimed_zero (e : Engine) : fireTimed e 0 = e := by
  have h : e.timed.find?
      (fun t => t.source == e.current && decide (t.durationMs < 0)) = none :=
    List.find?_eq_none.mpr (by intro t ht; simp)
  unfold fireTimed
  rw [h]

/-- A first build starts in BOOT and installs the tables computed for BOOT. -/
theorem PowerFSM_create_none_eq (env : BuildEnv) :
    PowerFSM_create env none =
      { current := .BOOT
        table := plainTransitions env
        timed := timedTransitions env .BOOT } := by
  unfold PowerFSM_create
  exact fireTimed_zero _

/-- A build with a preserved state starts in that state and installs the
tables computed for it. -/
theorem PowerFSM_create_some_eq (env : BuildEnv) (s : FsmState) :
    PowerFSM_create env (some s) =
      { current := s
        table := plainTransitions env
        timed := timedTransitions env s } := by
  unfold PowerFSM_create
  exact fireTimed_zero _

/-- No plain transition registered by `PowerFSM_create` has SDS or
LOW_BATT_SDS as its source, and none has SDS as its target. -/
theorem plainTransitions_props (env : BuildEnv) :
    ∀ t ∈ plainTransitions env,
      t.source ≠ FsmState.SDS ∧ t.source ≠ FsmState.LOW_BATT_SDS ∧
        t.target ≠ FsmState.SDS := by
  unfold plainTransitions wakeTarget
  split_ifs <;> decide

/-- No profile-dependent timed transition has BOOT, SDS or LOW_BATT_SDS as
its source, and none has SDS as its target. -/
theorem profileTimedList_props (env : BuildEnv) :
    ∀ t ∈ profileTimedList env,
      t.source ≠ FsmState.BOOT ∧ t.source ≠ FsmState.SDS ∧
        t.source ≠ FsmState.LOW_BATT_SDS ∧ t.target ≠ FsmState.SDS := by
  unfold profileTimedList
  split_ifs <;> simp [List.forall_mem_cons, List.forall_mem_append]

/-- Every element of the boot timed list has source BOOT and a non-SDS
target. -/
theorem bootTimedList_props (env : BuildEnv) (init : FsmState) :
    ∀ t ∈ bootTimedList env init,
      t.source = FsmState.BOOT ∧ t.target ≠ FsmState.SDS := by
  unfold bootTimedList
  split_ifs <;> simp [List.forall_mem_cons]

/-- No timed transition registered by `PowerFSM_create` has SDS or
LOW_BATT_SDS as its source, and none has SDS as its target. -/
theorem timedTransitions_props (env : BuildEnv) (init : FsmState) :
    ∀ t ∈ timedTransitions env init,
      t.source ≠ FsmState.SDS ∧ t.source ≠ FsmState.LOW_BATT_SDS ∧
        t.target ≠ FsmState.SDS := by
  intro t ht
  rcases List.mem_append.mp ht with h | h
  · obtain ⟨hs, htg⟩ := bootTimedList_props env init t h
    refine ⟨?_, ?_, htg⟩ <;> rw [hs] <;> decide
  · obtain ⟨_, h1, h2, h3⟩ := profileTimedList_props env t h
    exact ⟨h1, h2, h3⟩

/-- The profile-dependent timed transitions never contribute a boot timer. -/
theorem profileTimedList_filter_boot (env : BuildEnv) :
    (profileTimedList env).filter (fun t => t.source == FsmState.BOOT) = [] := by
  rw [List.filter_eq_nil_iff]
  intro t ht
  simp only [beq_iff_eq]
  exact (profileTimedList_props env t ht).1

/-- Witness for the power-state ceiling: with ceiling MAX_DARK, DARK is
allowed and monotonicity yields that the less deep ON is allowed too. -/
theorem isPowerStateAllowed_witness :
    mpsToNat MaxPowerState.MAX_DARK ≤ mpsToNat MaxPowerState.MAX_ON
  ∧ isPowerStateAllowed mgrLegacyNormal .MAX_DARK = true
  ∧ isPowerStateAllowed mgrLegacyNormal .MAX_ON = true :=
  ⟨by decide, by decide,
   (isPowerStateAllowed_ge_and_monotone mgrLegacyNormal .MAX_ON .MAX_DARK).2
     (by decide) (by decide)⟩

/-- CLAIM C4. A rebuild (`PowerFSM_recreate`) constructs the new engine's
tables entirely from the build environment (current profile plus hardware
flags), keeps the current state exactly equal to the previous engine's
current state (in particular it is never reset to BOOT from elsewhere), and
registers a BOOT-sourced timed transition exactly when the machine starts
the build in BOOT. Rebuilding in DARK with a changed profile is the
instance with `e.current = DARK`. -/
theorem powerFSM_recreate_preserves_state (env : BuildEnv) (e : Engine) :
    (PowerFSM_recreate env e).current = e.current
  ∧ (PowerFSM_recreate env e).table = plainTransitions env
  ∧ (PowerFSM_recreate env e).timed = timedTransitions env e.current
  ∧ (hasBootTimer (PowerFSM_recreate env e) ↔ e.current = FsmState.BOOT) := by
  have hc : PowerFSM_recreate env e =
      { current := e.current
        table := plainTransitions env
        timed := timedTransitions env e.current } := by
    unfold PowerFSM_recreate
    exact PowerFSM_create_some_eq env e.current
  refine ⟨by rw [hc], by rw [hc], by rw [hc], ?_⟩
  rw [hc]
  unfold hasBootTimer timedTransitions
  constructor
  · rintro ⟨t, ht, hsrc⟩
    rcases List.mem_append.mp ht with h | h
    · by_contra hne
      unfold bootTimedList at h
      rw [if_neg hne] at h
      exact absurd h (List.not_mem_nil t)
    · exact absurd hsrc (profileTimedList_props env t h).1
  · intro hb
    refine ⟨{ source := .BOOT, target := if env.hasUSB then .POWER else .ON,
              durationMs := 3 * 1000, action := none },
            List.mem_append.mpr (Or.inl ?_), rfl⟩
    unfold bootTimedList
    rw [if_pos hb]
    exact List.mem_singleton.mpr rfl

/-- Fixture build environment: an ESP32 (light-sleep capable, WiFi code
compiled in but not connected, no e-ink), legacy normal profile, on
battery. -/
def envW : BuildEnv :=
  { profile := legacyNormalProfile
    hasUSB := false
    role := .CLIENT
    archESP32 := true
    wifiSection := true
    useEink := false
    wifiAvailable := false
    sysScreenOnSecs := 60
    sysWaitBluetoothSecs := 60
    sysMinWakeSecs := 10 }

/-- The first build of the fixture machine: starts in BOOT. -/
def engineFirstBuild : Engine := PowerFSM_create envW none

/-- CLAIM C8 (counterexample). The boot timed transition is NOT added only
on the first build: recreating the engine while its current state is still
BOOT (possible, since rebuilds are accepted as soon as initial setup
completes and the machine stays in BOOT for the first 3 seconds) registers
the 3-second boot timed transition again on a rebuild. -/
theorem boot_timer_readded_on_rebuild_from_boot :
    engineFirstBuild.current = FsmState.BOOT
  ∧ ({ source := .BOOT, target := .ON, durationMs := 3000, action := none } :
        TimedTransition) ∈ (PowerFSM_recreate envW engineFirstBuild).timed := by
  decide

/-- Elapsed-time firing of the boot timer on a fresh first build: once more
than 3000 ms have elapsed in BOOT, the timed dispatch moves the machine to
POWER when USB power was present at build time and to ON otherwise. -/
theorem fireTimed_boot (env : BuildEnv) (tMs : Nat) (h3 : 3000 < tMs) :
    (fireTimed { current := .BOOT
                 table := plainTransitions env
                 timed := timedTransitions env .BOOT } tMs).current
      = (if env.hasUSB then FsmState.POWER else FsmState.ON) := by
  have hd : (3 : Nat) * 1000 < tMs := by omega
  simp [fireTimed, timedTransitions, bootTimedList, List.find?, hd]

/-- CLAIM C8 (amended). For any build environment: the freshly built
machine (first build) carries exactly one BOOT-sourced timed transition,
with a 3000 ms duration and target POWER iff hasUSB was true at build time
(else ON); after more than 3 seconds in BOOT that rule fires and moves the
machine accordingly; and a rebuild whose preserved state is NOT BOOT adds
no boot timer at all. (What the counterexample forces: a rebuild whose
preserved state is still BOOT does add it again.) -/
theorem boot_timer_amended (env : BuildEnv) (tMs : Nat) (h3 : 3000 < tMs) :
    ((PowerFSM_create env none).timed.filter (fun t => t.source == FsmState.BOOT))
      = [{ source := .BOOT, target := if env.hasUSB then .POWER else .ON,
           durationMs := 3000, action := none }]
  ∧ (fireTimed (PowerFSM_create env none) tMs).current
      = (if env.hasUSB then FsmState.POWER else FsmState.ON)
  ∧ (∀ s, s ≠ FsmState.BOOT →
      ((PowerFSM_create env (some s)).timed.filter
          (fun t => t.source == FsmState.BOOT)) = []) := by
  refine ⟨?_, ?_, ?_⟩
  · rw [PowerFSM_create_none_eq]
    show ((timedTransitions env .BOOT).filter (fun t => t.source == FsmState.BOOT)) = _
    unfold timedTransitions
    rw [List.filter_append, profileTimedList_filter_boot, List.append_nil]
    unfold bootTimedList
    rw [if_pos rfl]
    simp [List.filter]
  · rw [PowerFSM_create_none_eq]
    exact fireTimed_boot env tMs h3
  · intro s hs
    rw [PowerFSM_create_some_eq]
    show ((timedTransitions env s).filter (fun t => t.source == FsmState.BOOT)) = _
    unfold timedTransitions
    rw [List.filter_append, profileTimedList_filter_boot, List.append_nil]
    unfold bootTimedList
    rw [if_neg hs]
    rfl

/-- Witness for the amended boot-timer behaviour at the concrete fixture:
at 3001 ms the fixture machine (no USB) has moved to ON, and a rebuild
preserved in DARK carries no boot timer. -/
theorem boot_timer_amended_witness :
    (3000 : Nat) < 3001
  ∧ (fireTimed (PowerFSM_create envW none) 3001).current = FsmState.ON
  ∧ FsmState.DARK ≠ FsmState.BOOT
  ∧ ((PowerFSM_create envW (some .DARK)).timed.filter
        (fun t => t.source == FsmState.BOOT)) = [] := by
  have h := boot_timer_amended envW 3001 (by decide)
  exact ⟨by decide, h.2.1.trans (by decide), by decide, h.2.2 .DARK (by decide)⟩

/-- CLAIM C10. In every table built by `PowerFSM_create`: no plain or timed
transition has SDS as target, and none has SDS or LOW_BATT_SDS as source;
consequently the plain SDS state is unreachable from BOOT under the step
relation (whatever dispatch policy resolves duplicate rules), and
LOW_BATT_SDS is absorbing: no step leaves it and `trigger` ignores every
event there. -/
theorem sds_isolated_and_lowbatt_absorbing (env : BuildEnv)
    (pres : Option FsmState) :
    (∀ t ∈ (PowerFSM_create env pres).table,
        t.source ≠ FsmState.SDS ∧ t.source ≠ FsmState.LOW_BATT_SDS ∧
          t.target ≠ FsmState.SDS)
  ∧ (∀ t ∈ (PowerFSM_create env pres).timed,
        t.source ≠ FsmState.SDS ∧ t.source ≠ FsmState.LOW_BATT_SDS ∧
          t.target ≠ FsmState.SDS)
  ∧ (∀ s, Relation.ReflTransGen (EngineStep (PowerFSM_create env pres))
        FsmState.BOOT s → s ≠ FsmState.SDS)
  ∧ (∀ s, ¬ EngineStep (PowerFSM_create env pres) FsmState.LOW_BATT_SDS s)
  ∧ (∀ ev, triggerEvent
        { current := FsmState.LOW_BATT_SDS
          table := (PowerFSM_create env pres).table
          timed := (PowerFSM_create env pres).timed } ev
      = { current := FsmState.LOW_BATT_SDS
          table := (PowerFSM_create env pres).table
          timed := (PowerFSM_create env pres).timed }) := by
  have hinit : (PowerFSM_create env pres).table = plainTransitions env ∧
      ∃ init, (PowerFSM_create env pres).timed = timedTransitions env init := by
    cases pres with
    | none => rw [PowerFSM_create_none_eq]; exact ⟨rfl, .BOOT, rfl⟩
    | some s => rw [PowerFSM_create_some_eq]; exact ⟨rfl, s, rfl⟩
  obtain ⟨htabeq, init, htimeq⟩ := hinit
  have htab : ∀ t ∈ (PowerFSM_create env pres).table,
      t.source ≠ FsmState.SDS ∧ t.source ≠ FsmState.LOW_BATT_SDS ∧
        t.target ≠ FsmState.SDS := by
    rw [htabeq]; exact plainTransitions_props env
  have htim : ∀ t ∈ (PowerFSM_create env pres).timed,
      t.source ≠ FsmState.SDS ∧ t.source ≠ FsmState.LOW_BATT_SDS ∧
        t.target ≠ FsmState.SDS := by
    rw [htimeq]; exact timedTransitions_props env init
  have hstep : ∀ a b, EngineStep (PowerFSM_create env pres) a b →
      b ≠ FsmState.SDS ∧ a ≠ FsmState.LOW_BATT_SDS := by
    intro a b h
    cases h with
    | plain t ht hs => exact ⟨(htab t ht).2.2, hs ▸ (htab t ht).2.1⟩
    | timedRule t ht hs => exact ⟨(htim t ht).2.2, hs ▸ (htim t ht).2.1⟩
  refine ⟨htab, htim, ?_, ?_, ?_⟩
  · intro s h
    induction h with
    | refl => decide
    | tail h1 h2 ih => exact (hstep _ _ h2).1
  · intro s h
    exact (hstep _ _ h).2 rfl
  · intro ev
    have hfil : ((PowerFSM_create env pres).table.filter
        (fun t => t.source == FsmState.LOW_BATT_SDS && t.event == ev)) = [] := by
      rw [List.filter_eq_nil_iff]
      intro t ht
      simp only [Bool.and_eq_true, beq_iff_eq, not_and]
      intro hsrc _
      exact (htab t ht).2.1 hsrc
    simp [triggerEvent, findRule, hfil]

/-- Witness for the SDS-isolation theorem at the concrete fixture: a sample
registered rule with non-SDS target, the trivially reachable state BOOT,
and the absence of any step out of LOW_BATT_SDS towards ON. -/
theorem sds_isolated_witness :
    (({ source := .LS, event := .PRESS, target := .ON, action := none } :
        Transition) ∈ (PowerFSM_create envW none).table
      ∧ ({ source := .LS, event := .PRESS, target := .ON, action := none } :
        Transition).target ≠ FsmState.SDS)
  ∧ FsmState.BOOT ≠ FsmState.SDS
  ∧ ¬ EngineStep (PowerFSM_create envW none) FsmState.LOW_BATT_SDS FsmState.ON := by
  have h := sds_isolated_and_lowbatt_absorbing envW none
  have hmem : ({ source := .LS, event := .PRESS, target := .ON, action := none } :
      Transition) ∈ (PowerFSM_create envW none).table := by decide
  exact ⟨⟨hmem, (h.1 _ hmem).2.2⟩,
         h.2.2.1 FsmState.BOOT Relation.ReflTransGen.refl,
         h.2.2.2.1 FsmState.ON⟩

end Meshtastic
